import Mathlib

/-
Verification of the movie-frontend client of alx-project-nexus.

The development shallowly embeds the parts of the client that the
specification describes: the axios-based HTTP client (two variants of
src/services/api.js appear in the repository), the page data controllers
(Home, Dashboard, MovieDetails) and the presentation helpers
(MovieCard, MovieSlider, SearchBar).  JavaScript values are modelled as
follows: nullable/undefinable values are Option, JS truthiness of
strings and numbers is made explicit, numbers that matter are Nat / Int
/ Rat, and every fallible call is an Except parameter describing the
outcome of the network request.  Each transition function returns the
successor state together with the list of API calls it issues, so that
"issues no network call" and "no retry" are stated as facts about that
list.
-/

/-- The two persisted browser localStorage entries used by the app. -/
structure Storage where
  token : Option String
  user : Option String
deriving DecidableEq, Repr

/-- JS truthiness of a nullable string: null/undefined and the empty
string are falsy. -/
def jsTruthyStr : Option String → Bool
  | none => false
  | some s => s != ""

/-- JS truthiness of a nullable non-negative number: null/undefined and 0
are falsy. -/
def jsTruthyNat : Option Nat → Bool
  | none => false
  | some n => n != 0

/-- An axios request config, reduced to its header map (an assoc list). -/
structure RequestConfig where
  headers : List (String × String)
deriving DecidableEq, Repr

/-- Assignment `headers[k] = v`: overwrite the entry when the key exists,
append it otherwise. -/
def setHeader : List (String × String) → String → String → List (String × String)
  | [], k, v => [(k, v)]
  | p :: rest, k, v => if p.1 = k then (k, v) :: rest else p :: setHeader rest k v

/-- Request interceptor (identical in both api.js variants): when a token
is in localStorage (and truthy), set the Authorization header to
"Bearer " followed by the token; otherwise return the config unchanged. -/
def requestInterceptor (st : Storage) (c : RequestConfig) : RequestConfig :=
  match st.token with
  | some t =>
      if t != "" then
        { headers := setHeader c.headers "Authorization" ("Bearer " ++ t) }
      else c
  | none => c

/-- Client-observable state the response interceptor acts on: the
persisted storage and the current window location. -/
structure ClientState where
  storage : Storage
  location : String
deriving DecidableEq, Repr

/-- The repository contains two versions of the api.js module: the first
installs both a request and a response interceptor; the second installs
only the request interceptor. -/
inductive ApiVariant
  | v1
  | v2
deriving DecidableEq, Repr

/-- The 401 branch of the first variant's response interceptor: remove
the token and user entries and set window.location.href to /login. -/
def responseInterceptor401 (_s : ClientState) : ClientState :=
  { storage := { token := none, user := none }, location := "/login" }

/-- Effect of receiving an error response with the given status through
each client variant.  Variant 1 intercepts 401 and clears the session;
variant 2 installs no response interceptor, so the state is untouched
and the rejection simply propagates to the caller. -/
def processResponse (v : ApiVariant) (status : Nat) (s : ClientState) : ClientState :=
  match v with
  | ApiVariant.v1 => if status = 401 then responseInterceptor401 s else s
  | ApiVariant.v2 => s

/-- JS s.endsWith(suffix), via the underlying character lists. -/
def jsEndsWith (s suffix : String) : Bool :=
  suffix.data.isSuffixOf s.data

/-- JS s.trim(): strip leading and trailing whitespace, via the
underlying character lists. -/
def jsTrim (s : String) : String :=
  ⟨((s.data.dropWhile Char.isWhitespace).reverse.dropWhile
      Char.isWhitespace).reverse⟩

/-- ensureTrailingSlash from the second api.js variant. -/
def ensureTrailingSlash (s : String) : String :=
  if jsEndsWith s "/" then s else s ++ "/"

/-- Base URL of the first api.js variant: the env value when truthy,
otherwise the local development address.  No normalization is applied. -/
def baseURL_v1 (env : Option String) : String :=
  match env with
  | some e => if e != "" then e else "http://127.0.0.1:8000/api"
  | none => "http://127.0.0.1:8000/api"

/-- Base URL of the second api.js variant: the trimmed env value when
env is truthy and its trim is truthy, otherwise /api in production and
the local development address otherwise; a trailing slash is then
normalized on. -/
def baseURL_v2 (env : Option String) (prod : Bool) : String :=
  let fallback := if prod then "/api" else "http://127.0.0.1:8000/api"
  let base :=
    match env with
    | some e => if e != "" && jsTrim e != "" then jsTrim e else fallback
    | none => fallback
  ensureTrailingSlash base

/-- A movie record, restricted to the fields the verified behavior
reads: the backend id (0 models a missing/falsy id), the title, and the
optional display fields. -/
structure Movie where
  id : Nat
  title : String
  release_date : Option String
  vote_average : Option ℚ
  poster_url : Option String
deriving DecidableEq, Repr

/-- The page_info pagination envelope some backend configurations send. -/
structure PageInfo where
  total_pages : Nat
  has_next : Bool
  has_previous : Bool
deriving DecidableEq, Repr

/-- Shape of a movie-list response body: either a bare JSON array or an
object with optional results / page_info / count / next / previous
fields (standard DRF pagination uses the last four). -/
inductive MoviesData
  | arr (movies : List Movie)
  | obj (results : Option (List Movie)) (page_info : Option PageInfo)
        (count : Option Nat) (next : Option String) (previous : Option String)
deriving DecidableEq, Repr

/-- JS property access data.results: undefined on a bare array. -/
def MoviesData.resultsF : MoviesData → Option (List Movie)
  | MoviesData.arr _ => none
  | MoviesData.obj r _ _ _ _ => r

/-- JS property access data.page_info: undefined on a bare array. -/
def MoviesData.pageInfoF : MoviesData → Option PageInfo
  | MoviesData.arr _ => none
  | MoviesData.obj _ pi _ _ _ => pi

/-- JS property access data.count: undefined on a bare array. -/
def MoviesData.countF : MoviesData → Option Nat
  | MoviesData.arr _ => none
  | MoviesData.obj _ _ c _ _ => c

/-- JS property access data.next: undefined on a bare array. -/
def MoviesData.nextF : MoviesData → Option String
  | MoviesData.arr _ => none
  | MoviesData.obj _ _ _ n _ => n

/-- JS property access data.previous: undefined on a bare array. -/
def MoviesData.previousF : MoviesData → Option String
  | MoviesData.arr _ => none
  | MoviesData.obj _ _ _ _ p => p

/-- The network requests the modelled handlers can issue. -/
inductive ApiCall
  | getMovies (pageSize page : Nat)
  | searchMovies (query : String)
  | getMovie (id : Nat)
  | getUserRecommendations
  | getWatchlist
  | addToWatchlist (id : Nat)
  | removeFromWatchlist (id : Nat)
  | rateMovie (id rating : Nat)
deriving DecidableEq, Repr

/-- State of the Home page component. -/
structure HomeState where
  movies : List Movie
  searchResults : List Movie
  loading : Bool
  searching : Bool
  error : String
  searchQuery : String
  currentPage : Nat
  totalPages : Nat
  hasNext : Bool
  hasPrevious : Bool
deriving DecidableEq, Repr

/-- Initial Home state (the useState initializers). -/
def homeInit : HomeState :=
  { movies := [], searchResults := [], loading := true, searching := false,
    error := "", searchQuery := "", currentPage := 1, totalPages := 1,
    hasNext := false, hasPrevious := false }

/-- setMovies(data.results or data): the results field when present,
else the body itself.  When an object body has no results field the JS
stores the object in `movies`; its length is then undefined (falsy),
which the empty list reflects for every predicate the page evaluates. -/
def extractMovies : MoviesData → List Movie
  | MoviesData.arr ms => ms
  | MoviesData.obj r _ _ _ _ => r.getD []

/-- Math.ceil(count / 12) on natural numbers. -/
def ceilDiv12 (count : Nat) : Nat := (count + 11) / 12

/-- Success continuation of Home.fetchMovies: store the movies and the
page, then reconcile pagination metadata exactly as the source does:
prefer data.page_info; otherwise take the next/previous truthiness and,
only when data.count and data.results are both truthy, derive
totalPages as ceil(count / 12); finally stop the loading flag. -/
def fetchMoviesOk (page : Nat) (d : MoviesData) (s : HomeState) : HomeState :=
  let s1 := { s with movies := extractMovies d, currentPage := page }
  let s2 :=
    match d.pageInfoF with
    | some pi =>
        { s1 with totalPages := pi.total_pages, hasNext := pi.has_next,
                  hasPrevious := pi.has_previous }
    | none =>
        let s' := { s1 with hasNext := jsTruthyStr d.nextF,
                            hasPrevious := jsTruthyStr d.previousF }
        if jsTruthyNat d.countF && (d.resultsF).isSome then
          { s' with totalPages := ceilDiv12 (d.countF.getD 0) }
        else s'
  { s2 with loading := false }

/-- Catch branch of Home.fetchMovies: set the page error and stop the
loading flag; nothing else changes. -/
def fetchMoviesErr (s : HomeState) : HomeState :=
  { s with error := "Failed to fetch movies", loading := false }

/-- Home.fetchMovies as one transition over the outcome of its single
request: the loading flag is raised, exactly one getMovies call is
issued, and the outcome selects the success or the catch continuation.
No further call is issued in either case. -/
def fetchMovies (page : Nat) (outcome : Except Unit MoviesData) (s : HomeState) :
    HomeState × List ApiCall :=
  let s1 := { s with loading := true }
  match outcome with
  | Except.ok d => (fetchMoviesOk page d s1, [ApiCall.getMovies 12 page])
  | Except.error _ => (fetchMoviesErr s1, [ApiCall.getMovies 12 page])

/-- Render condition of the Home pagination controls. -/
def paginationShown (s : HomeState) : Bool :=
  s.searchQuery == "" && decide (0 < s.movies.length) &&
    (decide (1 < s.totalPages) || s.hasNext || s.hasPrevious)

/-- Home.handleSearch: a falsy (empty) query clears the results and the
stored query and returns without any request; a non-empty query stores
the query, raises the searching flag and issues the search request
(the response continuation is settled separately). -/
def handleSearch (query : String) (s : HomeState) : HomeState × List ApiCall :=
  if query == "" then
    ({ s with searchResults := [], searchQuery := "" }, [])
  else
    ({ s with searching := true, searchQuery := query }, [ApiCall.searchMovies query])

/-- SearchBar.handleSubmit: the onSearch callback is invoked with the
trimmed query only when the trimmed query is truthy; otherwise the
submit does nothing at all. -/
def searchBarSubmit (localQuery : String) : Option String :=
  if jsTrim localQuery != "" then some (jsTrim localQuery) else none

/-- Submitting the Home search bar: SearchBar.handleSubmit composed
with Home.handleSearch as its onSearch callback. -/
def homeSubmitSearch (localQuery : String) (s : HomeState) : HomeState × List ApiCall :=
  match searchBarSubmit localQuery with
  | some q => handleSearch q s
  | none => (s, [])

/-- Pressing the SearchBar clear button: onSearch is called with the
empty string. -/
def homeClearSearch (s : HomeState) : HomeState × List ApiCall :=
  handleSearch "" s

/-- Dashboard tabs. -/
inductive Tab
  | recommendations
  | watchlist
  | search
deriving DecidableEq, Repr

/-- State of the Dashboard page component.  Watchlist entries are kept
as the movie lists the page extracts; the per-entry nested movie object
is not needed by any verified property. -/
structure DashState where
  recommendations : List Movie
  watchlist : List Movie
  searchResults : List Movie
  loading : Bool
  searchQuery : String
  activeTab : Tab
  error : String
deriving DecidableEq, Repr

/-- Initial Dashboard state (the useState initializers). -/
def dashInit : DashState :=
  { recommendations := [], watchlist := [], searchResults := [],
    loading := true, searchQuery := "", activeTab := Tab.recommendations,
    error := "" }

/-- The inner .catch of each Promise.all member in fetchDashboardData:
a failed request is replaced by a response whose data is the empty
array, so the combined promise never rejects. -/
def dashResponseData : Except Unit MoviesData → MoviesData
  | Except.ok d => d
  | Except.error _ => MoviesData.arr []

/-- data.results or data or []: the results field when present, else the
body itself.  As in extractMovies, an object body without a results
field is stored as-is by the JS and behaves as an empty collection for
every predicate the page evaluates, which the empty list reflects; the
final alternative [] is unreachable since a response body is truthy. -/
def dashExtract (d : MoviesData) : List Movie :=
  match d.resultsF with
  | some r => r
  | none =>
      match d with
      | MoviesData.arr ms => ms
      | MoviesData.obj _ _ _ _ _ => []

/-- Dashboard.fetchDashboardData over the outcomes of its two requests:
both requests are issued once; each failure is swallowed by the inner
catch, so the outer catch that would set the page error never runs, and
the loading flag is stopped in the finally block. -/
def fetchDashboardData (rec wl : Except Unit MoviesData) (s : DashState) :
    DashState × List ApiCall :=
  let s1 := { s with loading := true }
  let s2 := { s1 with
    recommendations := dashExtract (dashResponseData rec),
    watchlist := dashExtract (dashResponseData wl) }
  ({ s2 with loading := false },
   [ApiCall.getUserRecommendations, ApiCall.getWatchlist])

/-- State of the MovieDetails page component. -/
structure DetailsState where
  movie : Option Movie
  loading : Bool
  error : String
  userRating : Nat
  isInWatchlist : Bool
  actionLoading : Bool
deriving DecidableEq, Repr

/-- MovieDetails.fetchMovieDetails over the outcome of its single
request: raise loading and clear the error, issue one getMovie call; on
success store the movie (and, when authenticated, the default rating
and watchlist status); on failure build the error message from the
optional response status and statusText; loading stops either way and
no further call is issued. -/
def fetchMovieDetails (auth : Bool) (mid : Nat)
    (outcome : Except (Option (Nat × String)) Movie) (s : DetailsState) :
    DetailsState × List ApiCall :=
  let s1 := { s with loading := true, error := "" }
  match outcome with
  | Except.ok m =>
      let s2 := { s1 with movie := some m }
      let s3 := if auth then { s2 with userRating := 0, isInWatchlist := false } else s2
      ({ s3 with loading := false }, [ApiCall.getMovie mid])
  | Except.error info =>
      let msg :=
        match info with
        | some st =>
            "Failed to load movie details: " ++ toString st.1 ++ " " ++ st.2
        | none => "Failed to load movie details"
      ({ s1 with error := msg, loading := false }, [ApiCall.getMovie mid])

/-- disabled={actionLoading} on the watchlist button and on each rating
star. -/
def watchlistButtonDisabled (s : DetailsState) : Bool := s.actionLoading

/-- MovieDetails.handleWatchlistToggle: redirect (no call) when
unauthenticated; no-op when the movie or its id is falsy; otherwise
raise actionLoading and issue the remove or add request according to
the current membership flag. -/
def handleWatchlistToggle (auth : Bool) (s : DetailsState) : DetailsState × List ApiCall :=
  if !auth then (s, [])
  else
    match s.movie with
    | none => (s, [])
    | some m =>
        if m.id == 0 then (s, [])
        else
          ({ s with actionLoading := true },
           [if s.isInWatchlist then ApiCall.removeFromWatchlist m.id
            else ApiCall.addToWatchlist m.id])

/-- MovieDetails.handleRating: same guards as the watchlist toggle, then
one rateMovie request. -/
def handleRating (auth : Bool) (stars : Nat) (s : DetailsState) : DetailsState × List ApiCall :=
  if !auth then (s, [])
  else
    match s.movie with
    | none => (s, [])
    | some m =>
        if m.id == 0 then (s, [])
        else ({ s with actionLoading := true }, [ApiCall.rateMovie m.id stars])

/-- A click on the watchlist button: the browser delivers no click to a
disabled control, so the handler runs only when actionLoading is off. -/
def clickWatchlist (auth : Bool) (s : DetailsState) : DetailsState × List ApiCall :=
  if watchlistButtonDisabled s then (s, []) else handleWatchlistToggle auth s

/-- A click on a rating star, likewise guarded by the disabled flag. -/
def clickRate (auth : Bool) (stars : Nat) (s : DetailsState) : DetailsState × List ApiCall :=
  if watchlistButtonDisabled s then (s, []) else handleRating auth stars s

/-- Settling of an in-flight watchlist call: on success the membership
flag flips to the requested value; the finally block clears
actionLoading in all cases. -/
def settleWatchlist (ok : Bool) (s : DetailsState) : DetailsState :=
  let s1 := if ok then { s with isInWatchlist := !s.isInWatchlist } else s
  { s1 with actionLoading := false }

/-- Settling of an in-flight rating call: on success the rating is
stored; the finally block clears actionLoading in all cases. -/
def settleRating (ok : Bool) (stars : Nat) (s : DetailsState) : DetailsState :=
  let s1 := if ok then { s with userRating := stars } else s
  { s1 with actionLoading := false }

/-- The MovieDetails page paired with the number of its mutating calls
currently in flight. -/
structure MDSystem where
  ui : DetailsState
  pending : Nat
deriving DecidableEq, Repr

/-- Events of the MovieDetails action subsystem: user clicks and the
settling of an outstanding mutating call. -/
inductive MDEvent
  | clickWatchlist
  | clickRate (stars : Nat)
  | settleWatchlist (ok : Bool)
  | settleRating (ok : Bool) (stars : Nat)
deriving DecidableEq, Repr

/-- One step of the MovieDetails action subsystem: clicks run the
guarded handlers and add the issued calls to the in-flight count; a
settle event consumes one outstanding call (and is impossible when none
is outstanding). -/
def mdStep (auth : Bool) (e : MDEvent) (sys : MDSystem) : MDSystem :=
  match e with
  | MDEvent.clickWatchlist =>
      let r := clickWatchlist auth sys.ui
      { ui := r.1, pending := sys.pending + r.2.length }
  | MDEvent.clickRate stars =>
      let r := clickRate auth stars sys.ui
      { ui := r.1, pending := sys.pending + r.2.length }
  | MDEvent.settleWatchlist ok =>
      if sys.pending == 0 then sys
      else { ui := settleWatchlist ok sys.ui, pending := sys.pending - 1 }
  | MDEvent.settleRating ok stars =>
      if sys.pending == 0 then sys
      else { ui := settleRating ok stars sys.ui, pending := sys.pending - 1 }

/-- The page state right after a successful detail fetch for movie m:
no action is loading and nothing is in flight. -/
def mdInit (m : Movie) : MDSystem :=
  { ui := { movie := some m, loading := false, error := "", userRating := 0,
            isInWatchlist := false, actionLoading := false },
    pending := 0 }

/-- States the MovieDetails action subsystem can reach from mdInit by
any sequence of events under any authentication status. -/
inductive MDReachable (m : Movie) : MDSystem → Prop
  | init : MDReachable m (mdInit m)
  | step (auth : Bool) (e : MDEvent) (sys : MDSystem) :
      MDReachable m sys → MDReachable m (mdStep auth e sys)

/-- Rendering of a JS number-or-NaN as JSX text, none modelling NaN. -/
def jsNumToString : Option Int → String
  | none => "NaN"
  | some y => toString y

/-- MovieCard.extractYear.  The parse argument models the host's
new Date(s).getFullYear(), returning none exactly when the result is
NaN; a falsy dateString short-circuits, and a NaN year is replaced by
the fallback text. -/
def MovieCard.extractYear (parse : String → Option Int) (dateString : Option String) : String :=
  if !(jsTruthyStr dateString) then "Unknown Year"
  else
    match parse (dateString.getD "") with
    | none => "Unknown Year"
    | some y => toString y

/-- MovieSlider.extractYear: same falsy short-circuit, but the
getFullYear result is returned without the NaN check, so an
unparseable non-empty date renders as NaN. -/
def MovieSlider.extractYear (parse : String → Option Int) (dateString : Option String) : String :=
  if !(jsTruthyStr dateString) then "Unknown Year"
  else jsNumToString (parse (dateString.getD ""))

/-- Number.prototype.toFixed(1), idealized on exact non-negative
rationals: the tenths value floor(q * 10 + 1/2), computed on the
numerator and denominator as floor((20 num + den) / (2 den)), printed
with one decimal digit. -/
def toFixed1 (q : ℚ) : String :=
  let n : Nat := ((20 * q.num + q.den).fdiv (2 * q.den)).toNat
  toString (n / 10) ++ "." ++ toString (n % 10)

/-- MovieCard.formatRating: a falsy rating (null/undefined/0) renders
as "N/A", otherwise as the rating to one decimal place. -/
def MovieCard.formatRating : Option ℚ → String
  | none => "N/A"
  | some r => if r != 0 then toFixed1 r else "N/A"

/-- MovieDetails.formatRating, textually identical to the MovieCard
one. -/
def MovieDetails.formatRating : Option ℚ → String
  | none => "N/A"
  | some r => if r != 0 then toFixed1 r else "N/A"

/-- MovieSlider.nextSlide over a movie list of the given length. -/
def nextSlide (len i : Nat) : Nat := if i = len - 1 then 0 else i + 1

/-- MovieSlider.prevSlide over a movie list of the given length. -/
def prevSlide (len i : Nat) : Nat := if i = 0 then len - 1 else i - 1

/-- A concrete movie record used to instantiate quantified theorems. -/
def sampleMovie : Movie :=
  { id := 7, title := "Sample", release_date := some "2020-01-01",
    vote_average := some (Rat.divInt 42 5), poster_url := none }

/-- A Home state as reached after a successful non-empty search. -/
def homeAfterSearch : HomeState :=
  { homeInit with loading := false, searchQuery := "batman",
                  searchResults := [sampleMovie] }

/-- A concrete date parser of the JS kind: the one ISO date parses,
every other string yields NaN. -/
def sampleParse (s : String) : Option Int :=
  if s = "2020-01-01" then some 2020 else none

/-- Initial MovieDetails state (the useState initializers). -/
def detailsInit : DetailsState :=
  { movie := none, loading := true, error := "", userRating := 0,
    isInWatchlist := false, actionLoading := false }

theorem lookup_setHeader (h : List (String × String)) (k v : String) :
    (setHeader h k v).lookup k = some v := by
  induction h with
  | nil => simp [setHeader, List.lookup]
  | cons p rest ih =>
      by_cases hp : p.1 = k
      · simp [setHeader, hp, List.lookup]
      · have hk : (k == p.1) = false := beq_eq_false_iff_ne.mpr (Ne.symm hp)
        simp [setHeader, hp, List.lookup, ih, hk]

theorem ensureTrailingSlash_endsWith (s : String) :
    jsEndsWith (ensureTrailingSlash s) "/" = true := by
  rw [ensureTrailingSlash]
  cases hb : jsEndsWith s "/" with
  | true => simp [hb]
  | false =>
      simp only [hb, Bool.false_eq_true, if_false]
      have hd : (s ++ "/").data = s.data ++ ['/'] := rfl
      simp [jsEndsWith, hd, List.isSuffixOf, List.isPrefixOf]

theorem settleWatchlist_actionLoading (ok : Bool) (u : DetailsState) :
    (settleWatchlist ok u).actionLoading = false := by
  cases ok <;> rfl

theorem settleRating_actionLoading (ok : Bool) (stars : Nat) (u : DetailsState) :
    (settleRating ok stars u).actionLoading = false := by
  cases ok <;> rfl

theorem clickWatchlist_of_disabled (auth : Bool) (u : DetailsState)
    (h : u.actionLoading = true) : clickWatchlist auth u = (u, []) := by
  simp [clickWatchlist, watchlistButtonDisabled, h]

theorem clickRate_of_disabled (auth : Bool) (stars : Nat) (u : DetailsState)
    (h : u.actionLoading = true) : clickRate auth stars u = (u, []) := by
  simp [clickRate, watchlistButtonDisabled, h]

theorem mdPending_inv (m : Movie) (sys : MDSystem) (h : MDReachable m sys) :
    sys.pending = (if sys.ui.actionLoading then 1 else 0) := by
  induction h with
  | init => rfl
  | step auth e sys' _ ih =>
      cases e with
      | clickWatchlist =>
          cases hd : sys'.ui.actionLoading with
          | true =>
              simp [mdStep, clickWatchlist_of_disabled auth sys'.ui hd, hd, ih]
          | false =>
              cases hauth : auth with
              | false =>
                  simp [mdStep, clickWatchlist, watchlistButtonDisabled,
                        handleWatchlistToggle, hd, ih]
              | true =>
                  cases hm : sys'.ui.movie with
                  | none =>
                      simp [mdStep, clickWatchlist, watchlistButtonDisabled,
                            handleWatchlistToggle, hd, hm, ih]
                  | some mv =>
                      by_cases hid : mv.id = 0
                      · simp [mdStep, clickWatchlist, watchlistButtonDisabled,
                              handleWatchlistToggle, hd, hm, hid, ih]
                      · simp [mdStep, clickWatchlist, watchlistButtonDisabled,
                              handleWatchlistToggle, hd, hm, hid, ih]
      | clickRate stars =>
          cases hd : sys'.ui.actionLoading with
          | true =>
              simp [mdStep, clickRate_of_disabled auth stars sys'.ui hd, hd, ih]
          | false =>
              cases hauth : auth with
              | false =>
                  simp [mdStep, clickRate, watchlistButtonDisabled,
                        handleRating, hd, ih]
              | true =>
                  cases hm : sys'.ui.movie with
                  | none =>
                      simp [mdStep, clickRate, watchlistButtonDisabled,
                            handleRating, hd, hm, ih]
                  | some mv =>
                      by_cases hid : mv.id = 0
                      · simp [mdStep, clickRate, watchlistButtonDisabled,
                              handleRating, hd, hm, hid, ih]
                      · simp [mdStep, clickRate, watchlistButtonDisabled,
                              handleRating, hd, hm, hid, ih]
      | settleWatchlist ok =>
          by_cases hp : sys'.pending = 0
          · have hstep : mdStep auth (MDEvent.settleWatchlist ok) sys' = sys' := by
              simp [mdStep, hp]
            rw [hstep]; exact ih
          · have hl : sys'.ui.actionLoading = true := by
              cases hl' : sys'.ui.actionLoading with
              | true => rfl
              | false => rw [hl'] at ih; simp at ih; exact absurd ih hp
            rw [hl] at ih
            simp at ih
            simp [mdStep, hp, ih, settleWatchlist_actionLoading]
      | settleRating ok stars =>
          by_cases hp : sys'.pending = 0
          · have hstep : mdStep auth (MDEvent.settleRating ok stars) sys' = sys' := by
              simp [mdStep, hp]
            rw [hstep]; exact ih
          · have hl : sys'.ui.actionLoading = true := by
              cases hl' : sys'.ui.actionLoading with
              | true => rfl
              | false => rw [hl'] at ih; simp at ih; exact absurd ih hp
            rw [hl] at ih
            simp at ih
            simp [mdStep, hp, ih, settleRating_actionLoading]

theorem append_ne_empty_left (a b : String) (h : a ≠ "") : a ++ b ≠ "" := by
  intro hcon
  apply h
  have hd : a.data ++ b.data = ([] : List Char) := congrArg String.data hcon
  have ha : a.data = [] := (List.append_eq_nil.mp hd).1
  exact String.ext (by rw [ha])

/-- C1 (counterexample): a 401 received through the second api.js
variant, from the dashboard with a logged-in session, neither clears
the persisted entries nor navigates to /login, because that variant
installs no response interceptor. -/
theorem C1_counterexample :
    ¬ ((processResponse ApiVariant.v2 401
          { storage := { token := some "tok", user := some "usr" },
            location := "/dashboard" }).storage.token = none
       ∧ (processResponse ApiVariant.v2 401
          { storage := { token := some "tok", user := some "usr" },
            location := "/dashboard" }).location = "/login") := by
  decide

/-- C1 (amended): through the first api.js variant, every 401 response,
whatever the originating state (page and session), removes both the
token and user entries and navigates to /login; the second variant has
no response interceptor and leaves the state untouched. -/
theorem C1_v1_401_clears_session (s : ClientState) :
    processResponse ApiVariant.v1 401 s =
      { storage := { token := none, user := none }, location := "/login" }
    ∧ processResponse ApiVariant.v2 401 s = s := ⟨rfl, rfl⟩

/-- C2: for every request config and storage state, when a non-empty
token entry is persisted the intercepted request carries the header
Authorization whose value is Bearer followed by the token, and when no
token entry is persisted the config is returned unchanged. -/
theorem C2_request_auth_header (st : Storage) (c : RequestConfig) :
    (∀ t, st.token = some t → t ≠ "" →
      ((requestInterceptor st c).headers).lookup "Authorization"
        = some ("Bearer " ++ t))
    ∧ (st.token = none → requestInterceptor st c = c) := by
  constructor
  · intro t ht hne
    simp [requestInterceptor, ht, hne, lookup_setHeader]
  · intro h
    simp [requestInterceptor, h]

/-- C2 witness at a concrete storage and empty config. -/
theorem C2_request_auth_header_witness :
    ((requestInterceptor { token := some "abc", user := none }
        { headers := [] }).headers).lookup "Authorization"
      = some ("Bearer " ++ "abc") :=
  (C2_request_auth_header { token := some "abc", user := none }
    { headers := [] }).1 "abc" rfl (by decide)

/-- C8 (counterexample): the first api.js variant applies no
trailing-slash normalization; with the env value absent its base URL is
the local development address, which does not end with a slash. -/
theorem C8_counterexample :
    baseURL_v1 none = "http://127.0.0.1:8000/api"
    ∧ jsEndsWith (baseURL_v1 none) "/" = false := by
  constructor
  · rfl
  · decide

/-- C8 (amended): the second api.js variant takes its base from the
build-time env value (trimmed) when non-blank, defaults to the local
development address outside production (and to /api in production), and
always normalizes a trailing slash on, where the normalization maps s
to s when s ends with a slash and to s with a slash appended otherwise;
the first variant applies no such normalization to its default. -/
theorem C8_base_url_amended (env : Option String) (prod : Bool) :
    jsEndsWith (baseURL_v2 env prod) "/" = true
    ∧ baseURL_v2 none false = "http://127.0.0.1:8000/api/"
    ∧ baseURL_v2 none true = "/api/"
    ∧ baseURL_v1 none = "http://127.0.0.1:8000/api"
    ∧ (∀ s, jsEndsWith s "/" = true → ensureTrailingSlash s = s)
    ∧ (∀ s, jsEndsWith s "/" = false → ensureTrailingSlash s = s ++ "/") := by
  refine ⟨?_, by decide, by decide, rfl, ?_, ?_⟩
  · show jsEndsWith (ensureTrailingSlash _) "/" = true
    exact ensureTrailingSlash_endsWith _
  · intro s hs
    simp [ensureTrailingSlash, hs]
  · intro s hs
    simp [ensureTrailingSlash, hs]

/-- C8 witness: the normalization at concrete strings with and without
a trailing slash. -/
theorem C8_base_url_amended_witness :
    ensureTrailingSlash "a/" = "a/" ∧ ensureTrailingSlash "a" = "a" ++ "/" :=
  ⟨(C8_base_url_amended none false).2.2.2.2.1 "a/" (by decide),
   (C8_base_url_amended none true).2.2.2.2.2 "a" (by decide)⟩

/-- C3 (counterexample): a response without page_info carrying count
100 but no results field leaves totalPages at 1, not at ceil(100/12) =
9; and a response without any count but with a next link makes the
pagination controls render, not hide. -/
theorem C3_counterexample :
    (fetchMoviesOk 1 (MoviesData.obj none none (some 100) none none)
        homeInit).totalPages = 1
    ∧ ceilDiv12 100 = 9
    ∧ paginationShown
        (fetchMoviesOk 1
          (MoviesData.obj (some [sampleMovie]) none none (some "url") none)
          homeInit) = true := by
  refine ⟨rfl, rfl, ?_⟩
  decide

/-- C3 (amended): for a response lacking a page_info envelope, when a
non-zero count and a results field are both present the derived
totalPages equals ceil(count/12); when no count is present totalPages
is left unchanged, and the pagination controls are hidden provided the
next/previous links are also absent and the carried totalPages does not
exceed 1. -/
theorem C3_pagination_amended (page : Nat) (d : MoviesData) (s : HomeState)
    (n : Nat) (hpi : d.pageInfoF = none) :
    (d.countF = some n → n ≠ 0 → (d.resultsF).isSome = true →
      (fetchMoviesOk page d s).totalPages = ceilDiv12 n)
    ∧ (d.countF = none → (fetchMoviesOk page d s).totalPages = s.totalPages)
    ∧ (d.countF = none → jsTruthyStr d.nextF = false →
        jsTruthyStr d.previousF = false → s.totalPages ≤ 1 →
        paginationShown (fetchMoviesOk page d s) = false) := by
  refine ⟨?_, ?_, ?_⟩
  · intro hc hn hr
    simp [fetchMoviesOk, hpi, hc, hr, jsTruthyNat, hn]
  · intro hc
    simp [fetchMoviesOk, hpi, hc, jsTruthyNat]
  · intro hc hnx hpv htp
    have h1 : decide (1 < (fetchMoviesOk page d s).totalPages) = false := by
      simp [fetchMoviesOk, hpi, hc, jsTruthyNat]
      omega
    have h2 : (fetchMoviesOk page d s).hasNext = false := by
      simp [fetchMoviesOk, hpi, hc, jsTruthyNat, hnx]
    have h3 : (fetchMoviesOk page d s).hasPrevious = false := by
      simp [fetchMoviesOk, hpi, hc, jsTruthyNat, hpv]
    simp [paginationShown, h1, h2, h3]

/-- C3 witness: a DRF-style body with count 100 and a results field
derives 9 total pages. -/
theorem C3_pagination_amended_witness :
    (fetchMoviesOk 1
      (MoviesData.obj (some [sampleMovie]) none (some 100) none none)
      homeInit).totalPages = ceilDiv12 100 :=
  (C3_pagination_amended 1
      (MoviesData.obj (some [sampleMovie]) none (some 100) none none)
      homeInit 100 rfl).1 rfl (by decide) rfl

/-- C4 (counterexample): when the dashboard recommendations fetch fails
(watchlist fetch succeeding), no page-level error message is set: the
error stays empty, the loading indicator stops, and the failed list is
silently replaced by the empty list. -/
theorem C4_counterexample :
    (fetchDashboardData (Except.error ())
        (Except.ok (MoviesData.arr [sampleMovie])) dashInit).1.error = ""
    ∧ (fetchDashboardData (Except.error ())
        (Except.ok (MoviesData.arr [sampleMovie])) dashInit).1.loading = false
    ∧ (fetchDashboardData (Except.error ())
        (Except.ok (MoviesData.arr [sampleMovie])) dashInit).1.recommendations
        = [] := ⟨rfl, rfl, rfl⟩

/-- C4 (amended): a failed home-page movie fetch sets its page-level
error message and stops loading, issuing exactly its one original
request (no retry); every failed movie-detail fetch, whether a
transport failure carrying no response or a response-carrying failure
(such as a 404, whose status and statusText are spliced into the
message), sets a non-empty page-level error, stops loading, and issues
exactly its one original request; the two dashboard fetches always
issue exactly their two original requests and stop loading, but a
failure there is swallowed by the per-request catch: the page error is
left unchanged and the failed list becomes empty, with no retry
either. -/
theorem C4_fetch_failure_amended (page : Nat) (s : HomeState) (auth : Bool)
    (mid : Nat) (sd : DetailsState) (dsh : DashState)
    (rec wl : Except Unit MoviesData) :
    ((fetchMovies page (Except.error ()) s).1.error = "Failed to fetch movies"
      ∧ (fetchMovies page (Except.error ()) s).1.loading = false
      ∧ (fetchMovies page (Except.error ()) s).2 = [ApiCall.getMovies 12 page])
    ∧ (∀ info : Option (Nat × String),
        (fetchMovieDetails auth mid (Except.error info) sd).1.error
          = (match info with
             | some st =>
                 "Failed to load movie details: " ++ toString st.1 ++ " " ++ st.2
             | none => "Failed to load movie details")
        ∧ (fetchMovieDetails auth mid (Except.error info) sd).1.error ≠ ""
        ∧ (fetchMovieDetails auth mid (Except.error info) sd).1.loading = false
        ∧ (fetchMovieDetails auth mid (Except.error info) sd).2
            = [ApiCall.getMovie mid])
    ∧ ((fetchDashboardData rec wl dsh).1.error = dsh.error
      ∧ (fetchDashboardData rec wl dsh).1.loading = false
      ∧ (fetchDashboardData rec wl dsh).2
          = [ApiCall.getUserRecommendations, ApiCall.getWatchlist]
      ∧ (rec = Except.error () →
          (fetchDashboardData rec wl dsh).1.recommendations = [])) := by
  refine ⟨⟨rfl, rfl, rfl⟩, ?_, rfl, rfl, rfl, ?_⟩
  · intro info
    cases info with
    | none =>
        refine ⟨rfl, ?_, rfl, rfl⟩
        show "Failed to load movie details" ≠ ""
        decide
    | some st =>
        refine ⟨rfl, ?_, rfl, rfl⟩
        show "Failed to load movie details: " ++ toString st.1 ++ " " ++ st.2 ≠ ""
        exact append_ne_empty_left _ _
          (append_ne_empty_left _ _ (append_ne_empty_left _ _ (by decide)))
  · intro h
    rw [h]
    rfl

/-- C4 witness: the dashboard recommendations list after a swallowed
failure, and the non-empty detail-page error after a response-carrying
404 failure. -/
theorem C4_fetch_failure_amended_witness :
    (fetchDashboardData (Except.error ()) (Except.ok (MoviesData.arr []))
        dashInit).1.recommendations = []
    ∧ (fetchMovieDetails true 5 (Except.error (some (404, "Not Found")))
        detailsInit).1.error ≠ "" :=
  ⟨(C4_fetch_failure_amended 1 homeInit true 5 detailsInit dashInit
      (Except.error ()) (Except.ok (MoviesData.arr []))).2.2.2.2.2 rfl,
   ((C4_fetch_failure_amended 1 homeInit true 5 detailsInit dashInit
      (Except.error ()) (Except.ok (MoviesData.arr []))).2.1
      (some (404, "Not Found"))).2.1⟩

/-- C5 (counterexample): with search results showing, submitting the
search form with an empty query does nothing at all: the state is
returned unchanged (results and stored query are NOT cleared), because
SearchBar.handleSubmit only invokes the callback for a non-blank
query.  Only the network-call part of the claim holds. -/
theorem C5_counterexample :
    homeSubmitSearch "" homeAfterSearch = (homeAfterSearch, [])
    ∧ homeAfterSearch.searchResults ≠ []
    ∧ homeAfterSearch.searchQuery ≠ "" := by
  refine ⟨rfl, ?_, ?_⟩ <;> decide

/-- C5 (amended): submitting the search bar with a query that is blank
after trimming is a no-op issuing no network call; the clearing of the
results and of the stored query without a network call happens when the
search handler is invoked with the empty query, which the clear button
does. -/
theorem C5_empty_search_amended (q : String) (s : HomeState)
    (hq : jsTrim q = "") :
    homeSubmitSearch q s = (s, [])
    ∧ homeClearSearch s
        = ({ s with searchResults := [], searchQuery := "" }, []) := by
  constructor
  · simp [homeSubmitSearch, searchBarSubmit, hq]
  · rfl

/-- C5 witness: a whitespace-only submit over the post-search state. -/
theorem C5_empty_search_amended_witness :
    homeSubmitSearch " " homeAfterSearch = (homeAfterSearch, []) :=
  (C5_empty_search_amended " " homeAfterSearch (by decide)).1

/-- C6: in every reachable state of the MovieDetails action subsystem
at most one mutating call is in flight; while one is in flight the
watchlist control is disabled, so a click on it is a complete no-op (no
second call can start before the first completes); and the settling of
a call always clears the in-flight flag. -/
theorem C6_toggle_exclusive (m : Movie) (sys : MDSystem)
    (h : MDReachable m sys) :
    sys.pending ≤ 1
    ∧ (1 ≤ sys.pending → watchlistButtonDisabled sys.ui = true)
    ∧ (1 ≤ sys.pending →
        ∀ auth, mdStep auth MDEvent.clickWatchlist sys = sys)
    ∧ (∀ ok, (settleWatchlist ok sys.ui).actionLoading = false) := by
  have inv := mdPending_inv m sys h
  have hdis : 1 ≤ sys.pending → sys.ui.actionLoading = true := by
    intro hp
    cases hl : sys.ui.actionLoading with
    | true => rfl
    | false => rw [hl] at inv; simp at inv; omega
  refine ⟨?_, ?_, ?_, ?_⟩
  · rw [inv]; split <;> omega
  · intro hp
    exact hdis hp
  · intro hp auth
    have hl := hdis hp
    simp [mdStep, clickWatchlist_of_disabled auth sys.ui hl]
  · intro ok
    exact settleWatchlist_actionLoading ok sys.ui

/-- C6 witness at the initial state after a successful detail fetch. -/
theorem C6_toggle_exclusive_witness :
    (mdInit sampleMovie).pending ≤ 1
    ∧ (∀ ok, (settleWatchlist ok (mdInit sampleMovie).ui).actionLoading
        = false) :=
  ⟨(C6_toggle_exclusive sampleMovie (mdInit sampleMovie) MDReachable.init).1,
   (C6_toggle_exclusive sampleMovie (mdInit sampleMovie)
      MDReachable.init).2.2.2⟩

/-- C7 (counterexample): on the slider, a non-empty release-date string
that fails to parse is NOT displayed as Unknown Year: the unguarded
getFullYear result renders as NaN. -/
theorem C7_counterexample :
    MovieSlider.extractYear sampleParse (some "not-a-date") = "NaN"
    ∧ MovieSlider.extractYear sampleParse (some "not-a-date")
        ≠ "Unknown Year" := by
  constructor
  · decide
  · decide

/-- C7 (amended): a missing (or empty, hence falsy) release date
renders as Unknown Year in both components; a non-empty date that fails
to parse renders as Unknown Year on the card but as NaN on the slider;
a date that parses renders as its year in both. -/
theorem C7_year_fallback_amended (parse : String → Option Int)
    (d : Option String) :
    (jsTruthyStr d = false →
      MovieCard.extractYear parse d = "Unknown Year"
      ∧ MovieSlider.extractYear parse d = "Unknown Year")
    ∧ (∀ ds, d = some ds → ds ≠ "" → parse ds = none →
        MovieCard.extractYear parse d = "Unknown Year"
        ∧ MovieSlider.extractYear parse d = "NaN")
    ∧ (∀ ds y, d = some ds → ds ≠ "" → parse ds = some y →
        MovieCard.extractYear parse d = toString y
        ∧ MovieSlider.extractYear parse d = toString y) := by
  refine ⟨?_, ?_, ?_⟩
  · intro hf
    constructor
    · simp [MovieCard.extractYear, hf]
    · simp [MovieSlider.extractYear, hf]
  · intro ds hds hne hp
    subst hds
    constructor
    · simp [MovieCard.extractYear, jsTruthyStr, hne, hp]
    · simp [MovieSlider.extractYear, jsTruthyStr, hne, hp, jsNumToString]
  · intro ds y hds hne hp
    subst hds
    constructor
    · simp [MovieCard.extractYear, jsTruthyStr, hne, hp]
    · simp [MovieSlider.extractYear, jsTruthyStr, hne, hp, jsNumToString]

/-- C7 witness: the card's fallback at a concrete unparseable date. -/
theorem C7_year_fallback_amended_witness :
    MovieCard.extractYear sampleParse (some "garbage") = "Unknown Year" :=
  ((C7_year_fallback_amended sampleParse (some "garbage")).2.1 "garbage" rfl
    (by decide) (by decide)).1

/-- C9: both rating formatters display N/A for an absent rating and
also for the (falsy) rating 0, and display every strictly positive
rating to one decimal place; at 8.4 the display is the string 8.4. -/
theorem C9_zero_rating (r : ℚ) (hr : 0 < r) :
    MovieCard.formatRating (some 0) = "N/A"
    ∧ MovieDetails.formatRating (some 0) = "N/A"
    ∧ MovieCard.formatRating none = "N/A"
    ∧ MovieDetails.formatRating none = "N/A"
    ∧ MovieCard.formatRating (some r) = toFixed1 r
    ∧ MovieDetails.formatRating (some r) = toFixed1 r
    ∧ toFixed1 (Rat.divInt 42 5) = "8.4" := by
  have hne : (r != 0) = true := by
    simp [bne_iff_ne]
    exact ne_of_gt hr
  refine ⟨by decide, by decide, rfl, rfl, ?_, ?_, by decide⟩
  · simp [MovieCard.formatRating, hne]
  · simp [MovieDetails.formatRating, hne]

/-- C9 witness at the concrete rating 8.4. -/
theorem C9_zero_rating_witness :
    MovieCard.formatRating (some (Rat.divInt 42 5))
      = toFixed1 (Rat.divInt 42 5) :=
  (C9_zero_rating (Rat.divInt 42 5) (by decide)).2.2.2.2.1

/-- C10: for a non-empty movie list and an in-bounds current index,
nextSlide and prevSlide keep the index within bounds: nextSlide wraps
the last index to 0 and otherwise adds one, prevSlide wraps 0 to the
last index and otherwise subtracts one, so indexing the list at the new
index stays in bounds. -/
theorem C10_slider_bounds (ms : List Movie) (i : Nat) (h : i < ms.length) :
    nextSlide ms.length i < ms.length
    ∧ prevSlide ms.length i < ms.length
    ∧ (i = ms.length - 1 → nextSlide ms.length i = 0)
    ∧ (i ≠ ms.length - 1 → nextSlide ms.length i = i + 1)
    ∧ (i = 0 → prevSlide ms.length i = ms.length - 1)
    ∧ (i ≠ 0 → prevSlide ms.length i = i - 1) := by
  refine ⟨?_, ?_, ?_, ?_, ?_, ?_⟩
  · unfold nextSlide; split <;> omega
  · unfold prevSlide; split <;> omega
  · intro he; simp [nextSlide, he]
  · intro he; simp [nextSlide, he]
  · intro he; simp [prevSlide, he]
  · intro he; simp [prevSlide, he]

/-- C10 witness on a two-element list at the last index. -/
theorem C10_slider_bounds_witness :
    nextSlide [sampleMovie, sampleMovie].length 1
      < [sampleMovie, sampleMovie].length :=
  (C10_slider_bounds [sampleMovie, sampleMovie] 1 (by decide)).1
